import Mathlib

/-!
Verification of the UE packet-tap pipeline of `scripts/ue_packet_monitor.py`:
a string-level shallow embedding of the record decoder, the protocol
mapping, the two line formatters, the capture display loop, the capture
permission probe classification and the interface fallback logic of `main`.
Python string primitives (split, strip, lower, membership, justification)
are modelled by structurally recursive functions on character lists so
that every definition evaluates inside the kernel.
-/

namespace UEPacketMonitor

/-- Model of Python `line.split('|')` on the character list: the list of
fields between occurrences of the pipe separator (an empty input gives one
empty field, exactly as in Python). -/
def splitPipeChars : List Char → List (List Char)
  | [] => [[]]
  | c :: cs =>
    match splitPipeChars cs with
    | [] => [[c]]
    | f :: rest => if c = '|' then [] :: f :: rest else (c :: f) :: rest

/-- Model of Python `line.split('|')` on strings. -/
def split_fields (s : String) : List String :=
  (splitPipeChars s.data).map String.mk

/-- Drop leading whitespace characters, the directed half of Python `str.strip`. -/
def dropLeadingWS : List Char → List Char
  | [] => []
  | c :: cs => if c.isWhitespace then dropLeadingWS cs else c :: cs

/-- Model of Python `line.strip()`: whitespace removed from both ends. -/
def strip (s : String) : String :=
  String.mk ((dropLeadingWS (dropLeadingWS s.data).reverse).reverse)

/-- Model of Python `str.lower()` (the probed diagnostics are ASCII). -/
def lowerStr (s : String) : String :=
  String.mk (s.data.map Char.toLower)

/-- Whether the second character list occurs at the head of the first. -/
def headMatches : List Char → List Char → Bool
  | _, [] => true
  | [], _ :: _ => false
  | c :: cs, d :: ds => d = c && headMatches cs ds

/-- Substring occurrence on character lists, modelling Python `needle in haystack`. -/
def containsChars : List Char → List Char → Bool
  | _, [] => true
  | [], _ :: _ => false
  | c :: cs, d :: ds => headMatches (c :: cs) (d :: ds) || containsChars cs (d :: ds)

/-- Model of Python `needle in haystack` on strings. -/
def containsStr (haystack needle : String) : Bool :=
  containsChars haystack.data needle.data

/-- Model of Python right-justification `{x:>w}`: pad with spaces on the left. -/
def rjust (s : String) (w : Nat) : String :=
  String.mk (List.replicate (w - s.length) ' ') ++ s

/-- Model of Python left-justification `{x:<w}`: pad with spaces on the right. -/
def ljust (s : String) (w : Nat) : String :=
  s ++ String.mk (List.replicate (w - s.length) ' ')

/-- `map_protocol` from the source: the fixed dictionary lookup with default
`proto_num if proto_num else 'IP'`. -/
def map_protocol (proto_num : String) : String :=
  if proto_num = "1" then "ICMP"
  else if proto_num = "6" then "TCP"
  else if proto_num = "17" then "UDP"
  else if proto_num = "58" then "ICMPv6"
  else if proto_num ≠ "" then proto_num
  else "IP"

/-- `format_simple_line` from the source:
`f"{count:>6}  {src_ip:<15} ---> {dst_ip:<15}  [{protocol}]"`. -/
def format_simple_line (src_ip dst_ip protocol : String) (count : Nat) : String :=
  rjust (Nat.repr count) 6 ++ "  " ++ ljust src_ip 15 ++ " ---> " ++
    ljust dst_ip 15 ++ "  [" ++ protocol ++ "]"

/-- `format_5tuple_line` from the source: endpoints get a `:port` suffix only
when the port string is non-empty, then
`f"{count:>6}  {src_part:<22} ---> {dst_part:<22}  [{protocol}]"`. -/
def format_5tuple_line (src_ip src_port dst_ip dst_port protocol : String)
    (count : Nat) : String :=
  let src_part := if src_port ≠ "" then src_ip ++ ":" ++ src_port else src_ip
  let dst_part := if dst_port ≠ "" then dst_ip ++ ":" ++ dst_port else dst_ip
  rjust (Nat.repr count) 6 ++ "  " ++ ljust src_part 22 ++ " ---> " ++
    ljust dst_part 22 ++ "  [" ++ protocol ++ "]"

/-- Model of the Python truthiness selection `v4 if v4 else v6` used for every
IPv4-versus-IPv6 (and TCP-versus-UDP) field pair in the decode steps. -/
def resolve (v4 v6 : String) : String :=
  if v4 ≠ "" then v4 else v6

/-- The normalized tuple produced by the simple-mode decode step. -/
structure SimpleTuple where
  src : String
  dst : String
  protocol : String
deriving DecidableEq, Repr, Inhabited

/-- The normalized tuple produced by the 5-tuple-mode decode step. -/
structure FiveTuple where
  src : String
  src_port : String
  dst : String
  dst_port : String
  protocol : String
deriving DecidableEq, Repr, Inhabited

/-- The decode portion of the `run_simple_monitor` loop body, acting on the
already split fields: skip when fewer than 4 fields, resolve
source (fields 0/1), destination (fields 2/3), protocol
(`parts[4] if len(parts) > 4 and parts[4] else (parts[5] if len(parts) > 5 else '')`),
and produce a tuple only when both resolved addresses are non-empty. -/
def decode_simple_fields (parts : List String) : Option SimpleTuple :=
  if parts.length < 4 then none
  else
    let src := resolve (parts.getD 0 "") (parts.getD 1 "")
    let dst := resolve (parts.getD 2 "") (parts.getD 3 "")
    let proto_num :=
      if 4 < parts.length ∧ parts.getD 4 "" ≠ "" then parts.getD 4 ""
      else if 5 < parts.length then parts.getD 5 "" else ""
    if src ≠ "" ∧ dst ≠ "" then some ⟨src, dst, map_protocol proto_num⟩ else none

/-- Simple-mode decode of one raw stdout line (already stripped). -/
def decode_simple (line : String) : Option SimpleTuple :=
  decode_simple_fields (split_fields line)

/-- The decode portion of the `run_5tuple_monitor` loop body, acting on the
already split fields: skip when fewer than 8 fields, resolve source
(fields 0/1), source port (fields 2/3), destination (fields 4/5),
destination port (fields 6/7), protocol
(`parts[8] if len(parts) > 8 and parts[8] else (parts[9] if len(parts) > 9 else '')`),
and produce a tuple only when both resolved addresses are non-empty. -/
def decode_5tuple_fields (parts : List String) : Option FiveTuple :=
  if parts.length < 8 then none
  else
    let src := resolve (parts.getD 0 "") (parts.getD 1 "")
    let src_port := resolve (parts.getD 2 "") (parts.getD 3 "")
    let dst := resolve (parts.getD 4 "") (parts.getD 5 "")
    let dst_port := resolve (parts.getD 6 "") (parts.getD 7 "")
    let proto_num :=
      if 8 < parts.length ∧ parts.getD 8 "" ≠ "" then parts.getD 8 ""
      else if 9 < parts.length then parts.getD 9 "" else ""
    if src ≠ "" ∧ dst ≠ "" then
      some ⟨src, src_port, dst, dst_port, map_protocol proto_num⟩
    else none

/-- 5-tuple-mode decode of one raw stdout line (already stripped). -/
def decode_5tuple (line : String) : Option FiveTuple :=
  decode_5tuple_fields (split_fields line)

/-- The per-line display loop of `run_simple_monitor`: strip each stdout
line, skip empty lines and lines that do not decode, and for each decoded
tuple increment the counter and render one line. Returns the final packet
counter and the rendered lines in order. -/
def run_lines_simple : List String → Nat → Nat × List String
  | [], count => (count, [])
  | line :: rest, count =>
    let l := strip line
    if l = "" then run_lines_simple rest count
    else
      match decode_simple l with
      | none => run_lines_simple rest count
      | some t =>
        let r := run_lines_simple rest (count + 1)
        (r.1, format_simple_line t.src t.dst t.protocol (count + 1) :: r.2)

/-- The per-line display loop of `run_5tuple_monitor`, as `run_lines_simple`. -/
def run_lines_5tuple : List String → Nat → Nat × List String
  | [], count => (count, [])
  | line :: rest, count =>
    let l := strip line
    if l = "" then run_lines_5tuple rest count
    else
      match decode_5tuple l with
      | none => run_lines_5tuple rest count
      | some t =>
        let r := run_lines_5tuple rest (count + 1)
        (r.1,
          format_5tuple_line t.src t.src_port t.dst t.dst_port t.protocol (count + 1)
            :: r.2)

/-- The tuples the simple-mode decoder yields over a stream of raw lines. -/
def decoded_simple (lines : List String) : List SimpleTuple :=
  lines.filterMap (fun l => decode_simple (strip l))

/-- The tuples the 5-tuple-mode decoder yields over a stream of raw lines. -/
def decoded_5tuple (lines : List String) : List FiveTuple :=
  lines.filterMap (fun l => decode_5tuple (strip l))

/-- A banner line of equal signs, `"=" * n` in the source. -/
def eq_line (n : Nat) : String := String.mk (List.replicate n '=')

/-- The notice printed when the loop ends with a zero packet counter. -/
def no_packets_notice : String := "⚠ No packets were captured"

/-- Output of the `run_simple_monitor` capture loop (the lines printed after
the fixed header block), given the subprocess stdout lines: the rendered
packet lines, followed by the no-packets block exactly when the final
counter is zero. -/
def run_simple_monitor_output (lines : List String) : List String :=
  let r := run_lines_simple lines 0
  if r.1 = 0 then r.2 ++ ["\n" ++ eq_line 80, no_packets_notice, eq_line 80]
  else r.2

/-- Output of the `run_5tuple_monitor` capture loop, as
`run_simple_monitor_output` but with the 100-wide banner. -/
def run_5tuple_monitor_output (lines : List String) : List String :=
  let r := run_lines_5tuple lines 0
  if r.1 = 0 then r.2 ++ ["\n" ++ eq_line 100, no_packets_notice, eq_line 100]
  else r.2

/-- An apostrophe, written via its code point. -/
def apos : String := String.mk [Char.ofNat 39]

/-- The second permission phrase the probe searches stderr for. -/
def permDeniedPhrase : String := "you don" ++ apos ++ "t have permission"

/-- Outcome of the bounded probe subprocess call inside
`probe_capture_permissions`, as distinguished by the try arm and the three
except arms of the source. -/
inductive ProbeOutcome where
  | completed (returncode : Int) (stderrOut : String)
  | fileNotFound
  | timedOut
  | otherExc (msg : String)
deriving DecidableEq, Repr

/-- The stderr test of the source, over the lowercased stderr:
`'permission' in stderr or "you don't have permission" in stderr`. -/
def mentionsPermission (stderrOut : String) : Bool :=
  containsStr (lowerStr stderrOut) "permission" ||
    containsStr (lowerStr stderrOut) permDeniedPhrase

/-- `probe_capture_permissions` from the source as a function of the probe
subprocess outcome, returning the (ok, message) pair: permission text in
stderr or a non-zero exit with non-empty stderr is not-ok with the stripped
stderr; a missing tshark binary is not-ok with a fixed message; a timeout is
ok; any other raised exception is not-ok with its text; otherwise ok. -/
def probe_capture_permissions (o : ProbeOutcome) : Bool × String :=
  match o with
  | .completed rc stderrOut =>
    if mentionsPermission stderrOut then (false, strip stderrOut)
    else if rc ≠ 0 ∧ lowerStr stderrOut ≠ "" then (false, strip stderrOut)
    else (true, "")
  | .fileNotFound => (false, "tshark not found")
  | .timedOut => (true, "")
  | .otherExc msg => (false, msg)

/-- The interface auto-detection of `main` on the explicit src-ip path:
an explicit interface argument wins; else the first discovered val
interface whose address equals the source address; else the fallback
interface any. -/
def resolve_interface (arg_interface src_ip : String)
    (ue_list : List (String × String)) : String :=
  if arg_interface ≠ "" then arg_interface
  else
    match ue_list.find? (fun p => p.2 == src_ip) with
    | some p => p.1
    | none => "any"

/-- What the tap run of `main` does after target selection: the interface
the permission probe is run against, and the interface the live capture is
started on (none when the probe fails and the program exits). -/
structure TapRun where
  probed : String
  captured : Option String
deriving DecidableEq, Repr

/-- The probe-then-capture sequencing of `main` on the explicit src-ip path,
parameterized by the probe results: the probe runs against the resolved
interface, and the capture starts on that same interface only when the
probe reports ok. -/
def main_tap_flow (src_ip arg_interface : String)
    (ue_list : List (String × String)) (probe : String → Bool × String) : TapRun :=
  let iface := resolve_interface arg_interface src_ip ue_list
  if (probe iface).1 then ⟨iface, some iface⟩ else ⟨iface, none⟩

example : split_fields "10.0.0.1||10.0.0.2||6|" =
    ["10.0.0.1", "", "10.0.0.2", "", "6", ""] := by decide

example : decode_simple "10.0.0.1||10.0.0.2||6|" =
    some ⟨"10.0.0.1", "10.0.0.2", "TCP"⟩ := by decide

example : format_simple_line "10.0.0.1" "10.0.0.2" "TCP" 1 =
    "     1  10.0.0.1        ---> 10.0.0.2         [TCP]" := by decide

example : decode_simple "a||b|" = some ⟨"a", "b", "IP"⟩ := by decide

example : decode_5tuple "a||||b|||" = some ⟨"a", "", "b", "", "IP"⟩ := by decide

example : run_lines_simple ["10.0.0.1||10.0.0.2||6|", "||||", "1.1.1.1||2.2.2.2|||17"] 0 =
    (2, ["     1  10.0.0.1        ---> 10.0.0.2         [TCP]",
         "     2  1.1.1.1         ---> 2.2.2.2          [UDP]"]) := by decide

example : probe_capture_permissions (.completed 0 "tshark: Permission denied") =
    (false, "tshark: Permission denied") := by decide

example : probe_capture_permissions .timedOut = (true, "") := by decide

example : main_tap_flow "10.0.0.1" "" [] (fun _ => (true, "")) =
    ⟨"any", some "any"⟩ := by decide

/-! ## Helper lemmas -/

/-- The character data of a concatenation is the concatenation of the data. -/
theorem data_append (a b : String) : (a ++ b).data = a.data ++ b.data := by
  cases a
  cases b
  rfl

/-- Lowercasing a string preserves emptiness. -/
theorem lowerStr_eq_empty_iff (s : String) : lowerStr s = "" ↔ s = "" := by
  cases s with
  | mk l =>
    constructor
    · intro h
      have hd : l.map Char.toLower = [] := congrArg String.data h
      have hl : l = [] := List.map_eq_nil_iff.mp hd
      rw [hl]
    · intro h
      rw [h]
      rfl

/-- The empty stripped line never decodes in simple mode. -/
theorem decode_simple_empty : decode_simple "" = none := by decide

/-- The empty stripped line never decodes in 5-tuple mode. -/
theorem decode_5tuple_empty : decode_5tuple "" = none := by decide

/-- A line whose simple-mode decode is absent leaves the loop untouched. -/
theorem run_lines_simple_skip (line : String) (rest : List String) (count : Nat)
    (hd : decode_simple (strip line) = none) :
    run_lines_simple (line :: rest) count = run_lines_simple rest count := by
  simp only [run_lines_simple]
  by_cases h0 : strip line = "" <;> simp [h0, hd]

/-- A line whose 5-tuple-mode decode is absent leaves the loop untouched. -/
theorem run_lines_5tuple_skip (line : String) (rest : List String) (count : Nat)
    (hd : decode_5tuple (strip line) = none) :
    run_lines_5tuple (line :: rest) count = run_lines_5tuple rest count := by
  simp only [run_lines_5tuple]
  by_cases h0 : strip line = "" <;> simp [h0, hd]

/-- A line that decodes in simple mode renders one line and advances the counter. -/
theorem run_lines_simple_step (line : String) (rest : List String) (count : Nat)
    (t : SimpleTuple) (hd : decode_simple (strip line) = some t) :
    run_lines_simple (line :: rest) count =
      ((run_lines_simple rest (count + 1)).1,
        format_simple_line t.src t.dst t.protocol (count + 1) ::
          (run_lines_simple rest (count + 1)).2) := by
  have h0 : strip line ≠ "" := by
    intro h
    rw [h, decode_simple_empty] at hd
    exact Option.noConfusion hd
  simp only [run_lines_simple]
  simp [h0, hd]

/-- A line that decodes in 5-tuple mode renders one line and advances the counter. -/
theorem run_lines_5tuple_step (line : String) (rest : List String) (count : Nat)
    (t : FiveTuple) (hd : decode_5tuple (strip line) = some t) :
    run_lines_5tuple (line :: rest) count =
      ((run_lines_5tuple rest (count + 1)).1,
        format_5tuple_line t.src t.src_port t.dst t.dst_port t.protocol (count + 1) ::
          (run_lines_5tuple rest (count + 1)).2) := by
  have h0 : strip line ≠ "" := by
    intro h
    rw [h, decode_5tuple_empty] at hd
    exact Option.noConfusion hd
  simp only [run_lines_5tuple]
  simp [h0, hd]

/-- Characterization of the simple-mode loop from any starting counter: the
final counter advances by exactly the number of decoded tuples, one line is
rendered per tuple, and the i-th rendered line is the i-th decoded tuple
formatted with counter c+i+1. -/
theorem run_lines_simple_spec (lines : List String) (c : Nat) :
    (run_lines_simple lines c).1 = c + (decoded_simple lines).length ∧
    (run_lines_simple lines c).2.length = (decoded_simple lines).length ∧
    ∀ i, i < (run_lines_simple lines c).2.length →
      (run_lines_simple lines c).2.getD i "" =
        format_simple_line ((decoded_simple lines).getD i default).src
          ((decoded_simple lines).getD i default).dst
          ((decoded_simple lines).getD i default).protocol (c + i + 1) := by
  induction lines generalizing c with
  | nil =>
    simp [run_lines_simple, decoded_simple]
  | cons line rest ih =>
    cases hd : decode_simple (strip line) with
    | none =>
      have hdec : decoded_simple (line :: rest) = decoded_simple rest := by
        simp [decoded_simple, List.filterMap_cons, hd]
      rw [run_lines_simple_skip line rest c hd, hdec]
      exact ih c
    | some t =>
      have hdec : decoded_simple (line :: rest) = t :: decoded_simple rest := by
        simp [decoded_simple, List.filterMap_cons, hd]
      obtain ⟨ih1, ih2, ih3⟩ := ih (c + 1)
      rw [run_lines_simple_step line rest c t hd, hdec]
      dsimp only [List.length_cons]
      refine ⟨by omega, by omega, ?_⟩
      intro i hi
      cases i with
      | zero =>
        simp
      | succ j =>
        simp only [List.getD_cons_succ]
        have hj : j < (run_lines_simple rest (c + 1)).2.length := by omega
        rw [ih3 j hj]
        congr 1
        omega

/-- Characterization of the 5-tuple-mode loop, as `run_lines_simple_spec`. -/
theorem run_lines_5tuple_spec (lines : List String) (c : Nat) :
    (run_lines_5tuple lines c).1 = c + (decoded_5tuple lines).length ∧
    (run_lines_5tuple lines c).2.length = (decoded_5tuple lines).length ∧
    ∀ i, i < (run_lines_5tuple lines c).2.length →
      (run_lines_5tuple lines c).2.getD i "" =
        format_5tuple_line ((decoded_5tuple lines).getD i default).src
          ((decoded_5tuple lines).getD i default).src_port
          ((decoded_5tuple lines).getD i default).dst
          ((decoded_5tuple lines).getD i default).dst_port
          ((decoded_5tuple lines).getD i default).protocol (c + i + 1) := by
  induction lines generalizing c with
  | nil =>
    simp [run_lines_5tuple, decoded_5tuple]
  | cons line rest ih =>
    cases hd : decode_5tuple (strip line) with
    | none =>
      have hdec : decoded_5tuple (line :: rest) = decoded_5tuple rest := by
        simp [decoded_5tuple, List.filterMap_cons, hd]
      rw [run_lines_5tuple_skip line rest c hd, hdec]
      exact ih c
    | some t =>
      have hdec : decoded_5tuple (line :: rest) = t :: decoded_5tuple rest := by
        simp [decoded_5tuple, List.filterMap_cons, hd]
      obtain ⟨ih1, ih2, ih3⟩ := ih (c + 1)
      rw [run_lines_5tuple_step line rest c t hd, hdec]
      dsimp only [List.length_cons]
      refine ⟨by omega, by omega, ?_⟩
      intro i hi
      cases i with
      | zero =>
        simp
      | succ j =>
        simp only [List.getD_cons_succ]
        have hj : j < (run_lines_5tuple rest (c + 1)).2.length := by omega
        rw [ih3 j hj]
        congr 1
        omega

/-- Every element of the simple-mode rendered output is a formatted line. -/
theorem mem_run_lines_simple (lines : List String) (c : Nat) (x : String)
    (hx : x ∈ (run_lines_simple lines c).2) :
    ∃ s d p n, x = format_simple_line s d p n := by
  induction lines generalizing c with
  | nil =>
    simp [run_lines_simple] at hx
  | cons line rest ih =>
    cases hd : decode_simple (strip line) with
    | none =>
      rw [run_lines_simple_skip line rest c hd] at hx
      exact ih c hx
    | some t =>
      rw [run_lines_simple_step line rest c t hd] at hx
      rcases List.mem_cons.mp hx with h | h
      · exact ⟨t.src, t.dst, t.protocol, c + 1, h⟩
      · exact ih (c + 1) h

/-- Every element of the 5-tuple-mode rendered output is a formatted line. -/
theorem mem_run_lines_5tuple (lines : List String) (c : Nat) (x : String)
    (hx : x ∈ (run_lines_5tuple lines c).2) :
    ∃ s sp d dp p n, x = format_5tuple_line s sp d dp p n := by
  induction lines generalizing c with
  | nil =>
    simp [run_lines_5tuple] at hx
  | cons line rest ih =>
    cases hd : decode_5tuple (strip line) with
    | none =>
      rw [run_lines_5tuple_skip line rest c hd] at hx
      exact ih c hx
    | some t =>
      rw [run_lines_5tuple_step line rest c t hd] at hx
      rcases List.mem_cons.mp hx with h | h
      · exact ⟨t.src, t.src_port, t.dst, t.dst_port, t.protocol, c + 1, h⟩
      · exact ih (c + 1) h

/-- A formatted simple line always ends in a closing bracket. -/
theorem format_simple_line_last (s d p : String) (n : Nat) :
    (format_simple_line s d p n).data.getLast? = some ']' := by
  have h : format_simple_line s d p n =
      (rjust (Nat.repr n) 6 ++ "  " ++ ljust s 15 ++ " ---> " ++
        ljust d 15 ++ "  [" ++ p) ++ "]" := by
    simp [format_simple_line]
  rw [h, data_append]
  exact List.getLast?_append_cons _ ']' []

/-- A formatted 5-tuple line always ends in a closing bracket. -/
theorem format_5tuple_line_last (s sp d dp p : String) (n : Nat) :
    (format_5tuple_line s sp d dp p n).data.getLast? = some ']' := by
  have h : format_5tuple_line s sp d dp p n =
      (rjust (Nat.repr n) 6 ++ "  " ++
        ljust (if sp ≠ "" then s ++ ":" ++ sp else s) 22 ++ " ---> " ++
        ljust (if dp ≠ "" then d ++ ":" ++ dp else d) 22 ++ "  [" ++ p) ++ "]" := by
    simp [format_5tuple_line]
  rw [h, data_append]
  exact List.getLast?_append_cons _ ']' []

/-- The no-packets notice is never a formatted simple line. -/
theorem format_simple_line_ne_notice (s d p : String) (n : Nat) :
    format_simple_line s d p n ≠ no_packets_notice := by
  intro h
  have h1 := format_simple_line_last s d p n
  rw [h] at h1
  have h2 : no_packets_notice.data.getLast? = some 'd' := by decide
  rw [h2] at h1
  exact absurd (Option.some.inj h1) (by decide)

/-- The no-packets notice is never a formatted 5-tuple line. -/
theorem format_5tuple_line_ne_notice (s sp d dp p : String) (n : Nat) :
    format_5tuple_line s sp d dp p n ≠ no_packets_notice := by
  intro h
  have h1 := format_5tuple_line_last s sp d dp p n
  rw [h] at h1
  have h2 : no_packets_notice.data.getLast? = some 'd' := by decide
  rw [h2] at h1
  exact absurd (Option.some.inj h1) (by decide)

/-- The simple-mode protocol selection
`parts[4] if len(parts) > 4 and parts[4] else (parts[5] if len(parts) > 5 else '')`
equals the truthiness selection over the two protocol fields. -/
theorem proto_resolve_simple (parts : List String) :
    (if 4 < parts.length ∧ parts.getD 4 "" ≠ "" then parts.getD 4 ""
     else if 5 < parts.length then parts.getD 5 "" else "") =
    resolve (parts.getD 4 "") (parts.getD 5 "") := by
  unfold resolve
  by_cases h1 : 4 < parts.length ∧ parts.getD 4 "" ≠ ""
  · rw [if_pos h1, if_pos h1.2]
  · rw [if_neg h1]
    by_cases h4 : 4 < parts.length
    · have he : parts.getD 4 "" = "" := by
        rcases not_and_or.mp h1 with h | h
        · exact absurd h4 h
        · exact not_not.mp h
      rw [if_neg (not_not_intro he)]
      by_cases h5 : 5 < parts.length
      · rw [if_pos h5]
      · rw [if_neg h5, List.getD_eq_default _ _ (by omega)]
    · have he : parts.getD 4 "" = "" := List.getD_eq_default _ _ (by omega)
      have h5 : ¬ 5 < parts.length := by omega
      rw [if_neg h5, if_neg (not_not_intro he), List.getD_eq_default _ _ (by omega)]

/-- The 5-tuple-mode protocol selection equals the truthiness selection over
the two protocol fields, as `proto_resolve_simple`. -/
theorem proto_resolve_5tuple (parts : List String) :
    (if 8 < parts.length ∧ parts.getD 8 "" ≠ "" then parts.getD 8 ""
     else if 9 < parts.length then parts.getD 9 "" else "") =
    resolve (parts.getD 8 "") (parts.getD 9 "") := by
  unfold resolve
  by_cases h1 : 8 < parts.length ∧ parts.getD 8 "" ≠ ""
  · rw [if_pos h1, if_pos h1.2]
  · rw [if_neg h1]
    by_cases h8 : 8 < parts.length
    · have he : parts.getD 8 "" = "" := by
        rcases not_and_or.mp h1 with h | h
        · exact absurd h8 h
        · exact not_not.mp h
      rw [if_neg (not_not_intro he)]
      by_cases h9 : 9 < parts.length
      · rw [if_pos h9]
      · rw [if_neg h9, List.getD_eq_default _ _ (by omega)]
    · have he : parts.getD 8 "" = "" := List.getD_eq_default _ _ (by omega)
      have h9 : ¬ 9 < parts.length := by omega
      rw [if_neg h9, if_neg (not_not_intro he), List.getD_eq_default _ _ (by omega)]

/-- A successful simple-mode decode resolves each logical field by the
truthiness selection over its IPv4 and IPv6 variants. -/
theorem decode_simple_fields_resolves (parts : List String) (t : SimpleTuple)
    (h : decode_simple_fields parts = some t) :
    t.src = resolve (parts.getD 0 "") (parts.getD 1 "") ∧
    t.dst = resolve (parts.getD 2 "") (parts.getD 3 "") ∧
    t.protocol = map_protocol (resolve (parts.getD 4 "") (parts.getD 5 "")) := by
  simp only [decode_simple_fields] at h
  rw [proto_resolve_simple] at h
  by_cases h4 : parts.length < 4
  · rw [if_pos h4] at h
    exact Option.noConfusion h
  · rw [if_neg h4] at h
    by_cases hsd : resolve (parts.getD 0 "") (parts.getD 1 "") ≠ "" ∧
        resolve (parts.getD 2 "") (parts.getD 3 "") ≠ ""
    · rw [if_pos hsd] at h
      obtain rfl := Option.some.inj h
      exact ⟨rfl, rfl, rfl⟩
    · rw [if_neg hsd] at h
      exact Option.noConfusion h

/-- A successful 5-tuple-mode decode resolves each logical field by the
truthiness selection over its IPv4/IPv6 (or TCP/UDP) variants. -/
theorem decode_5tuple_fields_resolves (parts : List String) (t : FiveTuple)
    (h : decode_5tuple_fields parts = some t) :
    t.src = resolve (parts.getD 0 "") (parts.getD 1 "") ∧
    t.src_port = resolve (parts.getD 2 "") (parts.getD 3 "") ∧
    t.dst = resolve (parts.getD 4 "") (parts.getD 5 "") ∧
    t.dst_port = resolve (parts.getD 6 "") (parts.getD 7 "") ∧
    t.protocol = map_protocol (resolve (parts.getD 8 "") (parts.getD 9 "")) := by
  simp only [decode_5tuple_fields] at h
  rw [proto_resolve_5tuple] at h
  by_cases h8 : parts.length < 8
  · rw [if_pos h8] at h
    exact Option.noConfusion h
  · rw [if_neg h8] at h
    by_cases hsd : resolve (parts.getD 0 "") (parts.getD 1 "") ≠ "" ∧
        resolve (parts.getD 4 "") (parts.getD 5 "") ≠ ""
    · rw [if_pos hsd] at h
      obtain rfl := Option.some.inj h
      exact ⟨rfl, rfl, rfl, rfl, rfl⟩
    · rw [if_neg hsd] at h
      exact Option.noConfusion h

/-- A successful simple-mode decode has non-empty resolved addresses. -/
theorem decode_simple_fields_nonempty (parts : List String) (t : SimpleTuple)
    (h : decode_simple_fields parts = some t) : t.src ≠ "" ∧ t.dst ≠ "" := by
  simp only [decode_simple_fields] at h
  by_cases h4 : parts.length < 4
  · rw [if_pos h4] at h
    exact Option.noConfusion h
  · rw [if_neg h4] at h
    by_cases hsd : resolve (parts.getD 0 "") (parts.getD 1 "") ≠ "" ∧
        resolve (parts.getD 2 "") (parts.getD 3 "") ≠ ""
    · rw [if_pos hsd] at h
      obtain rfl := Option.some.inj h
      exact hsd
    · rw [if_neg hsd] at h
      exact Option.noConfusion h

/-- A successful 5-tuple-mode decode has non-empty resolved addresses. -/
theorem decode_5tuple_fields_nonempty (parts : List String) (t : FiveTuple)
    (h : decode_5tuple_fields parts = some t) : t.src ≠ "" ∧ t.dst ≠ "" := by
  simp only [decode_5tuple_fields] at h
  by_cases h8 : parts.length < 8
  · rw [if_pos h8] at h
    exact Option.noConfusion h
  · rw [if_neg h8] at h
    by_cases hsd : resolve (parts.getD 0 "") (parts.getD 1 "") ≠ "" ∧
        resolve (parts.getD 4 "") (parts.getD 5 "") ≠ ""
    · rw [if_pos hsd] at h
      obtain rfl := Option.some.inj h
      exact hsd
    · rw [if_neg hsd] at h
      exact Option.noConfusion h

/-! ## Claims -/

/-- Claim C1, counterexample: in simple mode the raw record `a||b|` splits
into only 4 pipe-separated fields — fewer than the 6 of the simple field
layout — yet the decode step produces a tuple, the counter advances and a
line is rendered; likewise the 8-field record `a||||b|||` in 5-tuple mode,
fewer than its 10-field layout. -/
theorem short_record_still_decodes :
    (split_fields "a||b|").length = 4 ∧
    decode_simple "a||b|" = some ⟨"a", "b", "IP"⟩ ∧
    run_lines_simple ["a||b|"] 0 = (1, [format_simple_line "a" "b" "IP" 1]) ∧
    (split_fields "a||||b|||").length = 8 ∧
    decode_5tuple "a||||b|||" = some ⟨"a", "", "b", "", "IP"⟩ ∧
    run_lines_5tuple ["a||||b|||"] 0 =
      (1, [format_5tuple_line "a" "" "b" "" "IP" 1]) := by
  decide

/-- Claim C1, amended: for every raw record line with fewer than 4
pipe-separated fields in simple mode (8 in 5-tuple mode) the decode step
yields absent — no tuple, the packet counter unchanged, no line rendered. -/
theorem short_record_absent (line : String) (rest : List String) (count : Nat) :
    ((split_fields (strip line)).length < 4 →
      decode_simple (strip line) = none ∧
      run_lines_simple (line :: rest) count = run_lines_simple rest count) ∧
    ((split_fields (strip line)).length < 8 →
      decode_5tuple (strip line) = none ∧
      run_lines_5tuple (line :: rest) count = run_lines_5tuple rest count) := by
  constructor
  · intro h
    have hd : decode_simple (strip line) = none := by
      unfold decode_simple decode_simple_fields
      rw [if_pos h]
    exact ⟨hd, run_lines_simple_skip line rest count hd⟩
  · intro h
    have hd : decode_5tuple (strip line) = none := by
      unfold decode_5tuple decode_5tuple_fields
      rw [if_pos h]
    exact ⟨hd, run_lines_5tuple_skip line rest count hd⟩

/-- Witness for `short_record_absent` at the concrete records `a|b` (3
fields, simple mode) and `a|b|c|d|e` (5 fields, 5-tuple mode). -/
theorem short_record_absent_witness :
    decode_simple (strip "a|b") = none ∧ decode_5tuple (strip "a|b|c|d|e") = none := by
  have h1 := (short_record_absent "a|b" [] 0).1 (by decide)
  have h2 := (short_record_absent "a|b|c|d|e" [] 0).2 (by decide)
  exact ⟨h1.1, h2.1⟩

/-- Claim C3: the raw record `10.0.0.1||10.0.0.2||6|` in simple mode decodes
to source 10.0.0.1, destination 10.0.0.2, protocol TCP, and a simple-mode
run over exactly that record renders exactly the claimed line. -/
theorem scenario_a_exact_line :
    decode_simple "10.0.0.1||10.0.0.2||6|" =
      some ⟨"10.0.0.1", "10.0.0.2", "TCP"⟩ ∧
    run_simple_monitor_output ["10.0.0.1||10.0.0.2||6|"] =
      ["     1  10.0.0.1        ---> 10.0.0.2         [TCP]"] := by
  decide

/-- Claim C4: protocol mapping is a pure total function: the four table
entries map to their mnemonics, the empty string maps to the literal IP,
and every other non-empty input passes through unchanged. -/
theorem map_protocol_spec :
    map_protocol "1" = "ICMP" ∧ map_protocol "6" = "TCP" ∧
    map_protocol "17" = "UDP" ∧ map_protocol "58" = "ICMPv6" ∧
    map_protocol "" = "IP" ∧
    ∀ s : String, s ≠ "" → s ≠ "1" → s ≠ "6" → s ≠ "17" → s ≠ "58" →
      map_protocol s = s := by
  refine ⟨by decide, by decide, by decide, by decide, by decide, ?_⟩
  intro s hne h1 h6 h17 h58
  simp [map_protocol, h1, h6, h17, h58, hne]

/-- Witness for `map_protocol_spec` at the concrete pass-through input 99. -/
theorem map_protocol_spec_witness : map_protocol "99" = "99" :=
  map_protocol_spec.2.2.2.2.2 "99" (by decide) (by decide) (by decide)
    (by decide) (by decide)

/-- Claim C5: the truthiness selection takes the IPv4 variant whenever it is
non-empty, falls back to the IPv6 variant only when the IPv4 variant is
empty, and is empty only when both are; and in both modes every logical
field of a decoded tuple is resolved by exactly that selection. -/
theorem ipv4_variant_wins :
    (∀ v4 v6 : String, v4 ≠ "" → resolve v4 v6 = v4) ∧
    (∀ v4 v6 : String, v4 = "" → resolve v4 v6 = v6) ∧
    (∀ v4 v6 : String, resolve v4 v6 = "" ↔ (v4 = "" ∧ v6 = "")) ∧
    (∀ parts t, decode_simple_fields parts = some t →
      t.src = resolve (parts.getD 0 "") (parts.getD 1 "") ∧
      t.dst = resolve (parts.getD 2 "") (parts.getD 3 "") ∧
      t.protocol = map_protocol (resolve (parts.getD 4 "") (parts.getD 5 ""))) ∧
    (∀ parts t, decode_5tuple_fields parts = some t →
      t.src = resolve (parts.getD 0 "") (parts.getD 1 "") ∧
      t.src_port = resolve (parts.getD 2 "") (parts.getD 3 "") ∧
      t.dst = resolve (parts.getD 4 "") (parts.getD 5 "") ∧
      t.dst_port = resolve (parts.getD 6 "") (parts.getD 7 "") ∧
      t.protocol = map_protocol (resolve (parts.getD 8 "") (parts.getD 9 ""))) := by
  refine ⟨?_, ?_, ?_, ?_, ?_⟩
  · intro v4 v6 h
    unfold resolve
    rw [if_pos h]
  · intro v4 v6 h
    unfold resolve
    rw [if_neg (not_not_intro h)]
  · intro v4 v6
    unfold resolve
    constructor
    · intro h
      by_cases h4 : v4 = ""
      · rw [if_neg (not_not_intro h4)] at h
        exact ⟨h4, h⟩
      · rw [if_pos h4] at h
        exact absurd h h4
    · rintro ⟨h4, h6⟩
      rw [if_neg (not_not_intro h4)]
      exact h6
  · exact fun parts t h => decode_simple_fields_resolves parts t h
  · exact fun parts t h => decode_5tuple_fields_resolves parts t h

/-- Witness for `ipv4_variant_wins`: with both variants populated the IPv4
address wins. -/
theorem ipv4_variant_wins_witness : resolve "10.0.0.1" "fe80::1" = "10.0.0.1" :=
  ipv4_variant_wins.1 "10.0.0.1" "fe80::1" (by decide)

/-- Claim C7: a decoded tuple always carries non-empty source and
destination addresses, and a record whose decode is absent is discarded
without error: the counter is unchanged and no line is rendered. -/
theorem decoded_addresses_nonempty :
    (∀ parts t, decode_simple_fields parts = some t → t.src ≠ "" ∧ t.dst ≠ "") ∧
    (∀ parts t, decode_5tuple_fields parts = some t → t.src ≠ "" ∧ t.dst ≠ "") ∧
    (∀ line rest count, decode_simple (strip line) = none →
      run_lines_simple (line :: rest) count = run_lines_simple rest count) ∧
    (∀ line rest count, decode_5tuple (strip line) = none →
      run_lines_5tuple (line :: rest) count = run_lines_5tuple rest count) := by
  refine ⟨?_, ?_, ?_, ?_⟩
  · exact fun parts t h => decode_simple_fields_nonempty parts t h
  · exact fun parts t h => decode_5tuple_fields_nonempty parts t h
  · exact fun line rest count hd => run_lines_simple_skip line rest count hd
  · exact fun line rest count hd => run_lines_5tuple_skip line rest count hd

/-- Witness for `decoded_addresses_nonempty` at a concrete decoded record
and a concrete discarded record. -/
theorem decoded_addresses_nonempty_witness :
    (SimpleTuple.mk "a" "b" "IP").src ≠ "" ∧ (SimpleTuple.mk "a" "b" "IP").dst ≠ "" := by
  have h := decoded_addresses_nonempty.1 ["a", "", "b", ""] ⟨"a", "b", "IP"⟩ (by decide)
  exact h

/-- Claim C6: in both modes, over any stream the final counter equals the
number of rendered lines, which equals the number of decoded tuples, and
the i-th rendered line (0-based) is the i-th decoded tuple formatted with
counter i+1 — so the printed counters are exactly 1, 2, ..., N. -/
theorem counter_matches_lines (lines : List String) :
    ((run_lines_simple lines 0).1 = (run_lines_simple lines 0).2.length ∧
      (run_lines_simple lines 0).2.length = (decoded_simple lines).length ∧
      ∀ i, i < (run_lines_simple lines 0).2.length →
        (run_lines_simple lines 0).2.getD i "" =
          format_simple_line ((decoded_simple lines).getD i default).src
            ((decoded_simple lines).getD i default).dst
            ((decoded_simple lines).getD i default).protocol (i + 1)) ∧
    ((run_lines_5tuple lines 0).1 = (run_lines_5tuple lines 0).2.length ∧
      (run_lines_5tuple lines 0).2.length = (decoded_5tuple lines).length ∧
      ∀ i, i < (run_lines_5tuple lines 0).2.length →
        (run_lines_5tuple lines 0).2.getD i "" =
          format_5tuple_line ((decoded_5tuple lines).getD i default).src
            ((decoded_5tuple lines).getD i default).src_port
            ((decoded_5tuple lines).getD i default).dst
            ((decoded_5tuple lines).getD i default).dst_port
            ((decoded_5tuple lines).getD i default).protocol (i + 1)) := by
  obtain ⟨h1, h2, h3⟩ := run_lines_simple_spec lines 0
  obtain ⟨g1, g2, g3⟩ := run_lines_5tuple_spec lines 0
  refine ⟨⟨by omega, h2, ?_⟩, ⟨by omega, g2, ?_⟩⟩
  · intro i hi
    have h := h3 i hi
    rwa [Nat.zero_add] at h
  · intro i hi
    have g := g3 i hi
    rwa [Nat.zero_add] at g

/-- Witness for `counter_matches_lines` on a concrete two-record stream:
the second rendered line carries counter 2. -/
theorem counter_matches_lines_witness :
    (run_lines_simple ["10.0.0.1||10.0.0.2||6|", "1.1.1.1||2.2.2.2||17|"] 0).2.getD 1 "" =
      format_simple_line
        ((decoded_simple ["10.0.0.1||10.0.0.2||6|", "1.1.1.1||2.2.2.2||17|"]).getD 1 default).src
        ((decoded_simple ["10.0.0.1||10.0.0.2||6|", "1.1.1.1||2.2.2.2||17|"]).getD 1 default).dst
        ((decoded_simple ["10.0.0.1||10.0.0.2||6|", "1.1.1.1||2.2.2.2||17|"]).getD 1 default).protocol
        (1 + 1) :=
  (counter_matches_lines ["10.0.0.1||10.0.0.2||6|", "1.1.1.1||2.2.2.2||17|"]).1.2.2 1
    (by decide)

/-- Claim C8: in both modes, when the stream ends with zero decoded tuples
the loop output is exactly the no-packets block — it contains the notice
and no numbered per-packet line — and when at least one tuple decoded the
output is the rendered lines alone and the notice does not occur in it. -/
theorem no_packets_notice_iff (lines : List String) :
    (decoded_simple lines = [] →
      run_simple_monitor_output lines =
        ["\n" ++ eq_line 80, no_packets_notice, eq_line 80]) ∧
    (decoded_simple lines ≠ [] →
      run_simple_monitor_output lines = (run_lines_simple lines 0).2 ∧
      no_packets_notice ∉ run_simple_monitor_output lines) ∧
    (decoded_5tuple lines = [] →
      run_5tuple_monitor_output lines =
        ["\n" ++ eq_line 100, no_packets_notice, eq_line 100]) ∧
    (decoded_5tuple lines ≠ [] →
      run_5tuple_monitor_output lines = (run_lines_5tuple lines 0).2 ∧
      no_packets_notice ∉ run_5tuple_monitor_output lines) := by
  obtain ⟨h1, h2, _⟩ := run_lines_simple_spec lines 0
  obtain ⟨g1, g2, _⟩ := run_lines_5tuple_spec lines 0
  refine ⟨?_, ?_, ?_, ?_⟩
  · intro hz
    have hc : (run_lines_simple lines 0).1 = 0 := by
      rw [h1, hz]
      rfl
    have hnil : (run_lines_simple lines 0).2 = [] := by
      have : (run_lines_simple lines 0).2.length = 0 := by
        rw [h2, hz]
        rfl
      exact List.length_eq_zero.mp this
    simp only [run_simple_monitor_output]
    rw [hnil, if_pos hc, List.nil_append]
  · intro hnz
    have hc : (run_lines_simple lines 0).1 ≠ 0 := by
      rw [h1, Nat.zero_add]
      intro hh
      exact hnz (List.length_eq_zero.mp (by omega))
    have hout : run_simple_monitor_output lines = (run_lines_simple lines 0).2 := by
      simp only [run_simple_monitor_output]
      rw [if_neg hc]
    refine ⟨hout, ?_⟩
    rw [hout]
    intro hmem
    obtain ⟨s, d, p, n, hx⟩ := mem_run_lines_simple lines 0 no_packets_notice hmem
    exact format_simple_line_ne_notice s d p n hx.symm
  · intro hz
    have hc : (run_lines_5tuple lines 0).1 = 0 := by
      rw [g1, hz]
      rfl
    have hnil : (run_lines_5tuple lines 0).2 = [] := by
      have : (run_lines_5tuple lines 0).2.length = 0 := by
        rw [g2, hz]
        rfl
      exact List.length_eq_zero.mp this
    simp only [run_5tuple_monitor_output]
    rw [hnil, if_pos hc, List.nil_append]
  · intro hnz
    have hc : (run_lines_5tuple lines 0).1 ≠ 0 := by
      rw [g1, Nat.zero_add]
      intro hh
      exact hnz (List.length_eq_zero.mp (by omega))
    have hout : run_5tuple_monitor_output lines = (run_lines_5tuple lines 0).2 := by
      simp only [run_5tuple_monitor_output]
      rw [if_neg hc]
    refine ⟨hout, ?_⟩
    rw [hout]
    intro hmem
    obtain ⟨s, sp, d, dp, p, n, hx⟩ := mem_run_lines_5tuple lines 0 no_packets_notice hmem
    exact format_5tuple_line_ne_notice s sp d dp p n hx.symm

/-- Witness for `no_packets_notice_iff`: an empty stream yields exactly the
no-packets block, and a one-packet stream never contains the notice. -/
theorem no_packets_notice_iff_witness :
    run_simple_monitor_output [] =
      ["\n" ++ eq_line 80, no_packets_notice, eq_line 80] ∧
    no_packets_notice ∉ run_simple_monitor_output ["10.0.0.1||10.0.0.2||6|"] := by
  have h1 := (no_packets_notice_iff []).1 (by decide)
  have h2 := (no_packets_notice_iff ["10.0.0.1||10.0.0.2||6|"]).2.1 (by decide)
  exact ⟨h1, h2.2⟩

/-- Claim C2, counterexample: a probe attempt that raises an exception other
than the missing-binary and timeout conditions — an outcome outside the
claim's enumerated cases, so the claim requires ok — is classified not-ok
by the code. -/
theorem probe_other_exception_not_ok :
    probe_capture_permissions (.otherExc "boom") = (false, "boom") := by
  decide

/-- Claim C2, amended: probe classification over every outcome: a missing
tshark binary is not-ok with a message containing "not found"; a stderr
mentioning permission is not-ok with the stripped stderr; a non-zero exit
with other non-empty stderr is not-ok with the stripped stderr; a timeout
is ok; any other exception raised by the attempt is not-ok with its text;
every remaining completed outcome is ok. -/
theorem probe_classification (rc : Int) (se msg : String) :
    ((probe_capture_permissions .fileNotFound).1 = false ∧
      containsStr (probe_capture_permissions .fileNotFound).2 "not found" = true) ∧
    (mentionsPermission se = true →
      probe_capture_permissions (.completed rc se) = (false, strip se)) ∧
    (mentionsPermission se = false → rc ≠ 0 → se ≠ "" →
      probe_capture_permissions (.completed rc se) = (false, strip se)) ∧
    probe_capture_permissions .timedOut = (true, "") ∧
    (mentionsPermission se = false → (rc = 0 ∨ se = "") →
      probe_capture_permissions (.completed rc se) = (true, "")) ∧
    probe_capture_permissions (.otherExc msg) = (false, msg) := by
  refine ⟨by decide, ?_, ?_, by decide, ?_, rfl⟩
  · intro h
    simp [probe_capture_permissions, h]
  · intro h hrc hse
    have hl : lowerStr se ≠ "" := fun hh => hse ((lowerStr_eq_empty_iff se).mp hh)
    simp [probe_capture_permissions, h, hrc, hl]
  · intro h hd
    rcases hd with hrc | hse
    · simp [probe_capture_permissions, h, hrc]
    · subst hse
      have hl : lowerStr "" = "" := (lowerStr_eq_empty_iff "").mpr rfl
      simp [probe_capture_permissions, h, hl]

/-- Witness for `probe_classification` at a concrete permission diagnostic. -/
theorem probe_classification_witness :
    probe_capture_permissions (.completed 0 "tshark: Permission denied") =
      (false, strip "tshark: Permission denied") :=
  (probe_classification 0 "tshark: Permission denied" "x").2.1 (by decide)

/-- Claim C9, counterexample: with an explicit source address, no interface
argument and no matching local val interface, main resolves the capture
interface to any, and the permission probe is run against that same any
interface before the live capture starts on it — the probe is not skipped
under the broadened scope. -/
theorem fallback_any_is_probed_cex :
    resolve_interface "" "10.0.0.1" [] = "any" ∧
    main_tap_flow "10.0.0.1" "" [] (fun _ => (true, "")) =
      ⟨"any", some "any"⟩ := by
  decide

/-- Claim C9, amended: whenever an explicit source address matches no local
val interface and no interface override is given, the resolved interface
is the fallback any, the permission probe runs against that any interface,
and the live capture starts on it exactly when that probe reports ok. -/
theorem fallback_any_is_probed (src_ip : String) (ue_list : List (String × String))
    (probe : String → Bool × String)
    (h : ue_list.find? (fun p => p.2 == src_ip) = none) :
    resolve_interface "" src_ip ue_list = "any" ∧
    (main_tap_flow src_ip "" ue_list probe).probed = "any" ∧
    ((probe "any").1 = true →
      (main_tap_flow src_ip "" ue_list probe).captured = some "any") ∧
    ((probe "any").1 = false →
      (main_tap_flow src_ip "" ue_list probe).captured = none) := by
  have hr : resolve_interface "" src_ip ue_list = "any" := by
    simp only [resolve_interface, h]
    rfl
  refine ⟨hr, ?_, ?_, ?_⟩
  · simp only [main_tap_flow, hr]
    by_cases hp : (probe "any").1 = true
    · rw [if_pos hp]
    · rw [if_neg hp]
  · intro hp
    simp only [main_tap_flow, hr]
    rw [if_pos hp]
  · intro hp
    simp only [main_tap_flow, hr]
    rw [if_neg (by rw [hp]; exact Bool.false_ne_true)]

/-- Witness for `fallback_any_is_probed` with a concrete unmatched address. -/
theorem fallback_any_is_probed_witness :
    resolve_interface "" "10.0.0.9" [("val1", "10.0.0.1")] = "any" :=
  (fallback_any_is_probed "10.0.0.9" [("val1", "10.0.0.1")]
    (fun _ => (true, "")) (by decide)).1

/-- Claim C10: in 5-tuple mode port resolution prefers TCP over UDP: the
decoded tuple's ports are the truthiness selection of the TCP field over
the UDP field for both endpoints, the TCP port wins whenever non-empty and
the UDP port is used only when the TCP field is empty; and when a resolved
port is empty the formatted endpoint is the bare address with no port
suffix, while a non-empty port renders as address:port. -/
theorem tcp_port_preferred :
    (∀ tcp udp : String, tcp ≠ "" → resolve tcp udp = tcp) ∧
    (∀ tcp udp : String, tcp = "" → resolve tcp udp = udp) ∧
    (∀ parts t, decode_5tuple_fields parts = some t →
      t.src_port = resolve (parts.getD 2 "") (parts.getD 3 "") ∧
      t.dst_port = resolve (parts.getD 6 "") (parts.getD 7 "")) ∧
    (∀ s d p : String, ∀ n : Nat,
      format_5tuple_line s "" d "" p n =
        rjust (Nat.repr n) 6 ++ "  " ++ ljust s 22 ++ " ---> " ++
          ljust d 22 ++ "  [" ++ p ++ "]") ∧
    (∀ s sp d dp p : String, ∀ n : Nat, sp ≠ "" → dp ≠ "" →
      format_5tuple_line s sp d dp p n =
        rjust (Nat.repr n) 6 ++ "  " ++ ljust (s ++ ":" ++ sp) 22 ++ " ---> " ++
          ljust (d ++ ":" ++ dp) 22 ++ "  [" ++ p ++ "]") := by
  refine ⟨?_, ?_, ?_, ?_, ?_⟩
  · intro tcp udp h
    unfold resolve
    rw [if_pos h]
  · intro tcp udp h
    unfold resolve
    rw [if_neg (not_not_intro h)]
  · intro parts t h
    obtain ⟨_, hsp, _, hdp, _⟩ := decode_5tuple_fields_resolves parts t h
    exact ⟨hsp, hdp⟩
  · intro s d p n
    simp [format_5tuple_line]
  · intro s sp d dp p n hsp hdp
    simp [format_5tuple_line, hsp, hdp]

/-- Witness for `tcp_port_preferred`: with both port variants populated the
TCP port wins. -/
theorem tcp_port_preferred_witness : resolve "443" "53" = "443" :=
  tcp_port_preferred.1 "443" "53" (by decide)

end UEPacketMonitor
